import Mathlib

/-!
A shallow embedding of the single-file async Slack client (`slack.py`) and
proofs about its transport-error normalisation (`_make_json_res`), cursor
pagination (`_get_all`), realtime handshake establisher (`_make_rtm_api`),
realtime message loop (`wait_messages`, `got_hello`, `close`) and the
`escape` text helper.

Network effects are made explicit: a stateful loop that awaits successive
HTTP/websocket responses becomes a function over the list of scripted
responses the server would hand it, returning the observable outcome
(result or raised exception, calls issued, sleeps performed, frames
yielded).  Python exceptions become an `Except` / outcome constructor.
-/

namespace Slack

/-- A scalar JSON value, as found in the decoded response objects the
client inspects (the client only ever compares scalar fields). -/
inductive JVal where
  | null
  | bool (b : Bool)
  | num (n : Int)
  | str (s : String)
  deriving DecidableEq, Repr

/-- A decoded JSON object (a Python dict with string keys), as an
association list with distinct keys in practice; lookup takes the first
binding, matching dict semantics for parsed JSON. -/
abbrev JObj := List (String × JVal)

/-- `d.get(k)`: the value bound to `k`, or `none` when the key is absent. -/
def jget (obj : JObj) (k : String) : Option JVal :=
  (obj.find? (fun p => p.1 == k)).map (fun p => p.2)

/-- Python truthiness `bool(v)` of a scalar JSON value, used by
`if not json_res["ok"]` and `if not next_cursor`. -/
def jtruthy : JVal → Bool
  | .null => false
  | .bool b => b
  | .num n => n != 0
  | .str s => !s.isEmpty

/-- The Python exceptions the client can raise: its own `ApiError`, the
JSON decoder's error from `res.json()`, `KeyError` from a `d[k]` access on
a missing key, and `StopAsyncIteration` from `__anext__` on an exhausted
generator. -/
inductive PyExn where
  | apiError (msg : String)
  | jsonDecodeError (msg : String)
  | keyError (key : String)
  | stopAsyncIteration
  deriving DecidableEq, Repr

/-! ## Transport client: `AsyncApi._error_message` / `_make_json_res` -/

/-- An HTTP response as `_make_json_res` observes it: `status` is
`res.status`, `httpMethod` is `res.method` (the verb), `parsed` the result
of `res.json()` (`none` when the body is not parsable JSON), `bodyText`
the raw `res.text()`. -/
structure HttpRes where
  status : Nat
  httpMethod : String
  parsed : Option JObj
  bodyText : String
  deriving DecidableEq, Repr

/-- `AsyncApi._error_message(res, method, body, payload)`:
`f"Error {res.status} during {method} {res.method} request: {body}\npayload: {payload}"`. -/
def error_message (res : HttpRes) (method body payload : String) : String :=
  "Error " ++ toString res.status ++ " during " ++ method ++ " " ++ res.httpMethod ++
    " request: " ++ body ++ "\npayload: " ++ payload

/-- The message of the exception `await res.json()` raises on an
unparsable body (line 65, before the status / "ok" check runs).  The JSON
decoder computes its message from the body alone: the Slack method name
and the call's payload are not in scope there, so they cannot occur in it
unless they happen to occur in the body text. -/
def decode_error_message (_body : String) : String :=
  "Expecting value: line 1 column 1 (char 0)"

/-- `AsyncApi._make_json_res(res, method, payload)`.  Returns the raised
exception or the parsed object, plus the diagnostic lines printed (the
soft-failure branch prints `_error_message` with the parsed dict as body
and returns the response unchanged). -/
def make_json_res (res : HttpRes) (method payload : String) :
    Except PyExn JObj × List String :=
  match res.parsed with
  | none => (.error (.jsonDecodeError (decode_error_message res.bodyText)), [])
  | some json_res =>
    if ¬(200 ≤ res.status ∧ res.status < 400) ∨ jget json_res "ok" = none then
      (.error (.apiError (error_message res method res.bodyText payload)), [])
    else if jtruthy ((jget json_res "ok").getD .null) then
      (.ok json_res, [])
    else
      (.ok json_res, [error_message res method (toString (repr json_res)) payload])

/-! ## Text helper: `escape` -/

/-- Python `str.replace` on character lists: replace non-overlapping
occurrences of `pat` left to right.  Fuel-based; fuel `s.length` suffices
for the non-empty patterns `escape` uses. -/
def pyReplaceAux (rep pat : List Char) : Nat → List Char → List Char
  | _, [] => []
  | 0, s => s
  | fuel + 1, c :: rest =>
    if pat.isPrefixOf (c :: rest) then
      rep ++ pyReplaceAux rep pat fuel ((c :: rest).drop pat.length)
    else
      c :: pyReplaceAux rep pat fuel rest

/-- Python `s.replace(pat, rep)` for a non-empty pattern. -/
def pyReplace (s pat rep : String) : String :=
  ⟨pyReplaceAux rep.data pat.data s.data.length s.data⟩

/-- `escape(text)`: the three `replace` calls in source order
(`<` first, then `>`, then `&`). -/
def escape (text : String) : String :=
  let rv := pyReplace text "<" "&lt;"
  let rv := pyReplace rv ">" "&gt;"
  pyReplace rv "&" "&amp;"

/-! ## Paginator: `AsyncApi._get_all` -/

/-- One page as `_get` hands it to `_get_all`: `ok` is the truthiness of
`json_res["ok"]` (present — `_make_json_res` guarantees the key), `items`
the list under the requested field, `nextCursor` the value of
`json_res.get("response_metadata", {}).get("next_cursor")`. -/
structure Page (α : Type) where
  ok : Bool
  items : List α
  nextCursor : Option String
  deriving DecidableEq, Repr

/-- Python falsiness of the cursor: `None` or the empty string. -/
def cursorFalsy : Option String → Bool
  | none => true
  | some s => s.isEmpty

/-- The parameter mapping of a call (a Python dict of query parameters). -/
abbrev Params := String → Option String

/-- `params["cursor"] = next_cursor`: update exactly the "cursor" key. -/
def setCursor (params : Params) (c : Option String) : Params :=
  fun k => if k = "cursor" then c else params k

/-- What `_get_all` returns: `items rv` for `return rv`, `noneRes` for the
bare `return` (Python `None`) on a soft-failed page, `outOfPages` when the
scripted response list is exhausted while the loop would call again. -/
inductive GetAllResult (α : Type) where
  | items (l : List α)
  | noneRes
  | outOfPages
  deriving DecidableEq, Repr

/-- The items carried by a `_get_all` result (`None` carries none). -/
def GetAllResult.itemsOf {α : Type} : GetAllResult α → List α
  | .items l => l
  | .noneRes => []
  | .outOfPages => []

/-- `AsyncApi._get_all(method, field, params)` driven by the successive
responses `pages`; `rv` is the accumulator.  Returns the result together
with the parameter mapping each issued call used, in call order. -/
def get_all {α : Type} : List (Page α) → Params → List α → GetAllResult α × List Params
  | [], _, _ => (.outOfPages, [])
  | p :: rest, params, rv =>
    if p.ok = false then (.noneRes, [params])
    else
      let rv := rv ++ p.items
      if cursorFalsy p.nextCursor then (.items rv, [params])
      else
        let next := get_all rest (setCursor params p.nextCursor) rv
        (next.1, params :: next.2)

/-- The paginator's public entry (`list_all_channels` shape): start with
an empty accumulator. -/
def list_all {α : Type} (pages : List (Page α)) (params : Params) :
    GetAllResult α × List Params :=
  get_all pages params []

/-- The page shape of the pagination claims: every page `ok`, a non-empty
cursor on every page but the last, an absent/empty cursor on the last. -/
def wellPaged {α : Type} : List (Page α) → Bool
  | [] => false
  | [p] => p.ok && cursorFalsy p.nextCursor
  | p :: q :: rest => p.ok && !cursorFalsy p.nextCursor && wellPaged (q :: rest)

/-! ## Realtime establisher: `AsyncApi._make_rtm_api` -/

/-- A handshake response as a record of the JSON fields `_make_rtm_api`
reads: `ok` the truthiness of `res["ok"]`, and the string values (when the
keys exist) of `res["error"]`, `res["url"]`, `res["self"]["id"]`. -/
structure RtmRes where
  ok : Bool
  error : Option String
  url : Option String
  selfId : Option String
  deriving DecidableEq, Repr

/-- The observable outcome of `_make_rtm_api`: an established session
(bot id and websocket url), or a raised exception; with the number of
handshake calls issued and the list of `asyncio.sleep` durations. -/
inductive RtmOutcome where
  | connected (botId url : String) (calls : Nat) (sleeps : List Nat)
  | raised (e : PyExn) (calls : Nat) (sleeps : List Nat)
  | outOfResponses (calls : Nat) (sleeps : List Nat)
  deriving DecidableEq, Repr

/-- `AsyncApi._make_rtm_api(method, retry)` driven by the scripted
handshake responses.  Mirrors the source order: on `ok` break, then
`res["url"]`, then `res["self"]["id"]`; on not-`ok` the message is built
from `res["error"]` before `retry` is consulted (so a missing "error" key
raises `KeyError` in both branches); retry sleeps 5 and loops. -/
def make_rtm_api (retry : Bool) : List RtmRes → Nat → List Nat → RtmOutcome
  | [], calls, sleeps => .outOfResponses calls sleeps
  | res :: rest, calls, sleeps =>
    if res.ok then
      match res.url with
      | none => .raised (.keyError "url") (calls + 1) sleeps
      | some u =>
        match res.selfId with
        | none => .raised (.keyError "id") (calls + 1) sleeps
        | some sid => .connected sid u (calls + 1) sleeps
    else
      match res.error with
      | none => .raised (.keyError "error") (calls + 1) sleeps
      | some e =>
        if retry then make_rtm_api retry rest (calls + 1) (sleeps ++ [5])
        else .raised (.apiError ("Couldn't connect to RTM api: " ++ e)) (calls + 1) sleeps

/-- `rtm_connect` / `rtm_start`: both call `_make_rtm_api` (calls and
sleeps start at zero). -/
def rtm_connect (retry : Bool) (responses : List RtmRes) : RtmOutcome :=
  make_rtm_api retry responses 0 []

/-- `_RealtimeApi.bot_mention`: `f"<@{self.bot_id}>"`. -/
def bot_mention (botId : String) : String :=
  "<@" ++ botId ++ ">"

/-! ## Realtime session: `_RealtimeApi` -/

/-- The `MsgType` tags the session compares against. -/
def MsgType.HELLO : String := "hello"

/-- `MsgType.GOODBYE`. -/
def MsgType.GOODBYE : String := "goodbye"

/-- The kind of a raw websocket message: `aiohttp.WSMsgType.TEXT`,
`aiohttp.WSMsgType.ERROR`, or any other kind (binary, ping, ...),
which the loop skips. -/
inductive WSMsgType where
  | text
  | error
  | other
  deriving DecidableEq, Repr

/-- One raw inbound websocket message; for a TEXT message `data` is the
object `json.loads(msg.data)` decodes. -/
structure WSMsg where
  type : WSMsgType
  data : JObj
  deriving DecidableEq, Repr

/-- `_RealtimeApi.wait_messages` over the scripted inbound messages:
returns the frames yielded in order, and whether `self.close()` was
invoked (only the goodbye branch closes). -/
def wait_messages : List WSMsg → List JObj × Bool
  | [] => ([], false)
  | msg :: rest =>
    match msg.type with
    | .text =>
      if jget msg.data "type" = some (.str MsgType.GOODBYE) then ([], true)
      else
        let next := wait_messages rest
        (msg.data :: next.1, next.2)
    | .error => ([], false)
    | .other => wait_messages rest

/-- `_RealtimeApi.got_hello`: one `__anext__` on `wait_messages()` — the
first yielded frame, or `StopAsyncIteration` when the generator finishes
without yielding; then `msg["type"] == MsgType.HELLO` (a `d[k]` access:
`KeyError` when the frame has no "type" key). -/
def got_hello (msgs : List WSMsg) : Except PyExn Bool :=
  match (wait_messages msgs).1 with
  | [] => .error .stopAsyncIteration
  | msg :: _ =>
    match jget msg "type" with
    | none => .error (.keyError "type")
    | some v => .ok (v == JVal.str MsgType.HELLO)

/-- The session's connection slot `self._ws`: `some` an open connection
handle, `none` after it is cleared. -/
structure RealtimeState where
  ws : Option Nat
  deriving DecidableEq, Repr

/-- `_RealtimeApi.close`: return immediately when `self._ws is None`,
otherwise close the underlying connection and clear the slot.  The Bool
reports whether the underlying `self._ws.close()` was performed; the
function is total (no exception path). -/
def close (s : RealtimeState) : RealtimeState × Bool :=
  match s.ws with
  | none => (s, false)
  | some _ => (⟨none⟩, true)

/-- `sub` occurs contiguously inside `s`. -/
abbrev strContains (s sub : String) : Prop :=
  sub.data <:+: s.data

/-- A concrete parameter mapping for witnesses: the
`{"types": "public_channel,private_channel"}` dict of `list_all_channels`. -/
def sampleParams : Params :=
  fun k => if k = "types" then some "public_channel,private_channel" else none

/-! ## Helper lemmas -/

/-- A middle segment of a concatenation is a contiguous substring. -/
lemma contains_mid {mid all : List Char} (pre post : List Char)
    (h : pre ++ (mid ++ post) = all) : mid <:+: all :=
  ⟨pre, post, by rw [List.append_assoc]; exact h⟩

/-- The transport diagnostic contains the status, the method name and the
payload. -/
lemma error_message_contains (res : HttpRes) (method body payload : String) :
    strContains (error_message res method body payload) (toString res.status) ∧
    strContains (error_message res method body payload) method ∧
    strContains (error_message res method body payload) payload := by
  refine ⟨contains_mid "Error ".data
      ((" during " ++ method ++ " " ++ res.httpMethod ++ " request: " ++ body ++
        "\npayload: " ++ payload).data) ?_,
    contains_mid ("Error " ++ toString res.status ++ " during ").data
      ((" " ++ res.httpMethod ++ " request: " ++ body ++ "\npayload: " ++ payload).data) ?_,
    contains_mid ("Error " ++ toString res.status ++ " during " ++ method ++ " " ++
        res.httpMethod ++ " request: " ++ body ++ "\npayload: ").data [] ?_⟩ <;>
    simp [error_message, String.data_append]

/-! ## Theorems for the claims -/

/-- C9: the spec claims `escape("<a & b>") = "&lt;a &amp; b&gt;"`.  The code
replaces `&` last, so the `&` of the `&lt;`/`&gt;` entities produced by the
first two replacements is itself escaped: the code yields
`"&amp;lt;a &amp; b&amp;gt;"`, contradicting the docstring's reference to
the platform's escaping rules (which require `&` first). -/
theorem escape_code_behavior :
    escape "<a & b>" = "&amp;lt;a &amp; b&amp;gt;" ∧
    escape "<a & b>" ≠ "&lt;a &amp; b&gt;" := by
  constructor
  · rfl
  · decide

/-- C1, counterexample: a status-500 response with an unparsable body makes
`res.json()` raise on line 65, before `_make_json_res`'s diagnostic branch
runs; the raised error's message (computed by the JSON decoder from the
body alone) contains neither the status nor the method name nor the
payload, refuting the claim for this input. -/
theorem make_json_res_unparsable_counterexample :
    (make_json_res ⟨500, "GET", none, "<html>Internal Server Error</html>"⟩
        "users.list" "None").1
      = .error (.jsonDecodeError "Expecting value: line 1 column 1 (char 0)") ∧
    ¬ strContains "Expecting value: line 1 column 1 (char 0)" "500" ∧
    ¬ strContains "Expecting value: line 1 column 1 (char 0)" "users.list" ∧
    ¬ strContains "Expecting value: line 1 column 1 (char 0)" "None" := by
  refine ⟨rfl, ?_, ?_, ?_⟩ <;> decide

/-- C1, amended: for a response whose body parses, a status outside
[200,400) or a missing "ok" key raises `ApiError` with a message containing
the status, the method name and the payload; a parsed body with an "ok" key
(true or false) and an in-range status never raises and returns the parsed
response; an unparsable body still raises, but the decoder's error, whose
message carries none of the three. -/
theorem make_json_res_transport (res : HttpRes) (method payload : String) :
    (∀ json_res, res.parsed = some json_res →
        (¬(200 ≤ res.status ∧ res.status < 400) ∨ jget json_res "ok" = none) →
        (make_json_res res method payload).1
          = .error (.apiError (error_message res method res.bodyText payload)) ∧
        strContains (error_message res method res.bodyText payload) (toString res.status) ∧
        strContains (error_message res method res.bodyText payload) method ∧
        strContains (error_message res method res.bodyText payload) payload) ∧
    (∀ json_res v, res.parsed = some json_res → jget json_res "ok" = some v →
        200 ≤ res.status → res.status < 400 →
        (make_json_res res method payload).1 = .ok json_res) ∧
    (res.parsed = none →
        (make_json_res res method payload).1
          = .error (.jsonDecodeError (decode_error_message res.bodyText))) := by
  obtain ⟨st, hm, par, bt⟩ := res
  refine ⟨?_, ?_, ?_⟩
  · intro json_res hp hcond
    simp only at hp
    subst hp
    have hc := error_message_contains ⟨st, hm, some json_res, bt⟩ method bt payload
    exact ⟨by simp only [make_json_res, if_pos hcond], hc.1, hc.2.1, hc.2.2⟩
  · intro json_res v hp hok h200 h400
    simp only at hp
    subst hp
    have hcond : ¬(¬(200 ≤ st ∧ st < 400) ∨ jget json_res "ok" = none) := by
      simp [hok, h200, h400]
    simp only [make_json_res, if_neg hcond]
    split <;> rfl
  · intro hp
    simp only at hp
    subst hp
    rfl

/-- One step of `_get_all` on a page that is `ok` with a live cursor:
the result of the remaining loop. -/
lemma get_all_cons_fst {α : Type} (p : Page α) (rest : List (Page α)) (params : Params)
    (rv : List α) (hok : p.ok = true) (hc : cursorFalsy p.nextCursor = false) :
    (get_all (p :: rest) params rv).1
      = (get_all rest (setCursor params p.nextCursor) (rv ++ p.items)).1 := by
  obtain ⟨pok, pits, pcur⟩ := p
  simp only at hok hc
  subst hok
  simp [get_all, hc]

/-- One step of `_get_all` on a page that is `ok` with a live cursor:
the call-parameter trace. -/
lemma get_all_cons_snd {α : Type} (p : Page α) (rest : List (Page α)) (params : Params)
    (rv : List α) (hok : p.ok = true) (hc : cursorFalsy p.nextCursor = false) :
    (get_all (p :: rest) params rv).2
      = params :: (get_all rest (setCursor params p.nextCursor) (rv ++ p.items)).2 := by
  obtain ⟨pok, pits, pcur⟩ := p
  simp only at hok hc
  subst hok
  simp [get_all, hc]

/-- Over a well-paged response sequence, `_get_all` accumulates every
page's items in page order and issues one call per page. -/
lemma get_all_wellPaged {α : Type} :
    ∀ (pages : List (Page α)), wellPaged pages = true →
    ∀ (params : Params) (rv : List α),
      (get_all pages params rv).1 = .items (rv ++ (pages.map Page.items).flatten) ∧
      (get_all pages params rv).2.length = pages.length := by
  intro pages
  induction pages with
  | nil => intro h; simp [wellPaged] at h
  | cons p rest ih =>
    intro h params rv
    cases rest with
    | nil =>
      simp [wellPaged] at h
      obtain ⟨hok, hc⟩ := h
      simp [get_all, hok, hc]
    | cons q rest' =>
      simp [wellPaged] at h
      obtain ⟨⟨hok, hc⟩, hw⟩ := h
      have hrec := ih hw (setCursor params p.nextCursor) (rv ++ p.items)
      rw [get_all_cons_fst p (q :: rest') params rv hok hc,
        get_all_cons_snd p (q :: rest') params rv hok hc]
      refine ⟨?_, by simp [hrec.2]⟩
      rw [hrec.1]
      simp [List.append_assoc]

/-- C2: over N pages that are all `ok=true`, with a non-empty continuation
cursor on every page but the last and an absent/empty one on the last,
`list_all` returns exactly the concatenation of the pages' item lists in
page order, issuing exactly N calls. -/
theorem list_all_concatenates {α : Type} (pages : List (Page α)) (params : Params)
    (h : wellPaged pages = true) :
    (list_all pages params).1 = .items ((pages.map Page.items).flatten) ∧
    (list_all pages params).2.length = pages.length := by
  have hmain := get_all_wellPaged pages h params []
  simpa [list_all] using hmain

/-- Witness for C2 at a concrete two-page run. -/
theorem list_all_concatenates_witness :
    (list_all [⟨true, [1, 2], some "c1"⟩, ⟨true, ([3] : List Nat), none⟩] sampleParams).1
      = .items [1, 2, 3] ∧
    (list_all [⟨true, [1, 2], some "c1"⟩, ⟨true, ([3] : List Nat), none⟩] sampleParams).2.length
      = 2 := by
  have h := list_all_concatenates
    [⟨true, [1, 2], some "c1"⟩, ⟨true, ([3] : List Nat), none⟩] sampleParams (by decide)
  exact ⟨h.1.trans (by decide), h.2.trans (by decide)⟩

/-- C3: when the first page's response is `ok=false`, `_get_all` hits the
bare `return` (Python `None`, carrying no items) after the single first
call: no item is produced and no second call is issued. -/
theorem list_all_soft_fail_first {α : Type} (p : Page α) (rest : List (Page α))
    (params : Params) (h : p.ok = false) :
    (list_all (p :: rest) params).1 = GetAllResult.noneRes ∧
    ((list_all (p :: rest) params).1).itemsOf = [] ∧
    (list_all (p :: rest) params).2 = [params] := by
  simp [list_all, get_all, h, GetAllResult.itemsOf]

/-- Witness for C3 at a concrete soft-failed first page. -/
theorem list_all_soft_fail_first_witness :
    (list_all [(⟨false, [7], some "c"⟩ : Page Nat)] sampleParams).1 = GetAllResult.noneRes ∧
    ((list_all [(⟨false, [7], some "c"⟩ : Page Nat)] sampleParams).1).itemsOf = [] ∧
    (list_all [(⟨false, [7], some "c"⟩ : Page Nat)] sampleParams).2 = [sampleParams] :=
  list_all_soft_fail_first ⟨false, [7], some "c"⟩ [] sampleParams rfl

/-- The call-parameter trace of `_get_all` is empty or starts with the
mapping the call was entered with. -/
lemma get_all_callParams_shape {α : Type} (pages : List (Page α)) (params : Params)
    (rv : List α) :
    (get_all pages params rv).2 = [] ∨
    ∃ t, (get_all pages params rv).2 = params :: t := by
  cases pages with
  | nil => exact .inl rfl
  | cons p rest =>
    cases hok : p.ok with
    | false => exact .inr ⟨[], by simp [get_all, hok]⟩
    | true =>
      cases hc : cursorFalsy p.nextCursor with
      | true =>
        refine .inr ⟨[], ?_⟩
        obtain ⟨pok, pits, pcur⟩ := p
        simp only at hok hc
        subst hok
        simp [get_all, hc]
      | false => exact .inr ⟨_, get_all_cons_snd p rest params rv hok hc⟩

/-- C8: across the successive calls `_get_all` issues, the parameter
mapping changes only at the "cursor" key (`params["cursor"] = next_cursor`
is the only write): consecutive call parameters agree on every other key. -/
theorem get_all_cursor_frame {α : Type} (pages : List (Page α)) (params : Params)
    (rv : List α) :
    List.Chain' (fun p₁ p₂ => ∀ k, k ≠ "cursor" → p₂ k = p₁ k)
      (get_all pages params rv).2 := by
  induction pages generalizing params rv with
  | nil => simp [get_all]
  | cons p rest ih =>
    cases hok : p.ok with
    | false => simp [get_all, hok]
    | true =>
      cases hc : cursorFalsy p.nextCursor with
      | true =>
        obtain ⟨pok, pits, pcur⟩ := p
        simp only at hok hc
        subst hok
        simp [get_all, hc]
      | false =>
        rw [get_all_cons_snd p rest params rv hok hc, List.chain'_cons']
        refine ⟨?_, ih (setCursor params p.nextCursor) (rv ++ p.items)⟩
        intro b hb
        rcases get_all_callParams_shape rest (setCursor params p.nextCursor) (rv ++ p.items)
          with hsh | ⟨t, hsh⟩
        · simp [hsh] at hb
        · rw [hsh] at hb
          simp only [List.head?_cons, Option.mem_def, Option.some.injEq] at hb
          subst hb
          intro k hk
          simp [setCursor, hk]

/-- C5: with retry disabled, a handshake response that is `ok=false` and
carries an "error" string makes the establisher raise `ApiError` with a
message containing the server-reported error string, after exactly one
handshake call (whatever responses would have followed). -/
theorem rtm_no_retry_raises (r : RtmRes) (rest : List RtmRes) (e : String)
    (hok : r.ok = false) (herr : r.error = some e) :
    rtm_connect false (r :: rest)
      = .raised (.apiError ("Couldn't connect to RTM api: " ++ e)) 1 [] ∧
    strContains ("Couldn't connect to RTM api: " ++ e) e := by
  constructor
  · obtain ⟨rok, rerr, rurl, rid⟩ := r
    simp only at hok herr
    subst hok
    subst herr
    simp [rtm_connect, make_rtm_api]
  · exact contains_mid "Couldn't connect to RTM api: ".data [] (by simp [String.data_append])

/-- Witness for C5 at the spec's `invalid_auth` scenario. -/
theorem rtm_no_retry_raises_witness :
    rtm_connect false [⟨false, some "invalid_auth", none, none⟩]
      = .raised (.apiError "Couldn't connect to RTM api: invalid_auth") 1 [] ∧
    strContains "Couldn't connect to RTM api: invalid_auth" "invalid_auth" := by
  have h := rtm_no_retry_raises ⟨false, some "invalid_auth", none, none⟩ [] "invalid_auth"
    rfl rfl
  exact ⟨h.1.trans (by decide), by decide⟩

/-- C6, counterexample: on the claim's exact scenario — first response
`{"ok": false}` with no "error" key, retry enabled — line 169 evaluates
`res["error"]` before the retry branch, so the establisher raises
`KeyError` after one call instead of sleeping, retrying and connecting. -/
theorem rtm_retry_counterexample :
    rtm_connect true [⟨false, none, none, none⟩, ⟨true, none, some "wss://x", some "U1"⟩]
      = .raised (.keyError "error") 1 [] ∧
    rtm_connect true [⟨false, none, none, none⟩, ⟨true, none, some "wss://x", some "U1"⟩]
      ≠ .connected "U1" "wss://x" 2 [5] := by
  constructor
  · rfl
  · decide

/-- C6, amended: when the soft-failed first response carries an "error"
string (as the platform's soft failures do), the establisher with retry
enabled sleeps the fixed 5 units, retries, connects on the second response
`{"ok": true, "url": "wss://x", "self": {"id": "U1"}}` without raising,
and the session's `bot_mention` is `"<@U1>"`. -/
theorem rtm_retry_amended (e : String) (more : List RtmRes) :
    rtm_connect true
        (⟨false, some e, none, none⟩ :: ⟨true, none, some "wss://x", some "U1"⟩ :: more)
      = .connected "U1" "wss://x" 2 [5] ∧
    bot_mention "U1" = "<@U1>" := by
  exact ⟨rfl, rfl⟩

/-- C7: closing a session with an open connection performs the underlying
close exactly once across two successive `close()` calls: the first call
closes and clears the slot, the second sees `self._ws is None` and returns
immediately, performing no second close (and `close` is total: it has no
raising path). -/
theorem close_idempotent (c : Nat) :
    close ⟨some c⟩ = (⟨none⟩, true) ∧
    close (close ⟨some c⟩).1 = (⟨none⟩, false) := by
  exact ⟨rfl, rfl⟩

/-- No frame `wait_messages` yields has the "goodbye" type tag. -/
lemma wait_messages_no_goodbye (msgs : List WSMsg) :
    ∀ f ∈ (wait_messages msgs).1, jget f "type" ≠ some (.str MsgType.GOODBYE) := by
  induction msgs with
  | nil => simp [wait_messages]
  | cons m rest ih =>
    cases hmt : m.type with
    | text =>
      by_cases hg : jget m.data "type" = some (.str MsgType.GOODBYE)
      · simp [wait_messages, hmt, hg]
      · intro f hf
        simp only [wait_messages, hmt, if_neg hg, List.mem_cons] at hf
        rcases hf with hf | hf
        · subst hf; exact hg
        · exact ih f hf
    | error => simp [wait_messages, hmt]
    | other =>
      intro f hf
      simp only [wait_messages, hmt] at hf
      exact ih f hf

/-- Processing a goodbye TEXT frame closes the connection and ends the
sequence: whatever follows it is never read. -/
lemma wait_messages_stops_at_goodbye (pre : List WSMsg) (gm : WSMsg) (rest : List WSMsg)
    (hpre : ∀ m ∈ pre, m.type ≠ WSMsgType.error ∧
      (m.type = WSMsgType.text → jget m.data "type" ≠ some (.str MsgType.GOODBYE)))
    (hgt : gm.type = WSMsgType.text)
    (hgg : jget gm.data "type" = some (.str MsgType.GOODBYE)) :
    wait_messages (pre ++ gm :: rest)
      = ((pre.filter (fun m => m.type == WSMsgType.text)).map WSMsg.data, true) := by
  induction pre with
  | nil => simp [wait_messages, hgt, hgg]
  | cons m pre' ih =>
    obtain ⟨hm_err, hm_good⟩ := hpre m (List.mem_cons_self m pre')
    have hrec := ih (fun x hx => hpre x (List.mem_cons_of_mem m hx))
    cases hmt : m.type with
    | text =>
      have hg := hm_good hmt
      simp [wait_messages, hmt, hg, hrec, List.filter_cons]
    | error => exact absurd hmt hm_err
    | other => simp [wait_messages, hmt, hrec, List.filter_cons]

/-- C4: the event sequence never yields a frame whose type tag is
"goodbye"; when a goodbye frame is received (no error frame or earlier
goodbye preceding it), `close()` is invoked and the sequence terminates —
the yielded frames are exactly those of the TEXT messages before the
goodbye, whatever messages follow it. -/
theorem wait_messages_goodbye_safe :
    (∀ msgs : List WSMsg, ∀ f ∈ (wait_messages msgs).1,
        jget f "type" ≠ some (.str MsgType.GOODBYE)) ∧
    (∀ (pre : List WSMsg) (gm : WSMsg) (rest : List WSMsg),
        (∀ m ∈ pre, m.type ≠ WSMsgType.error ∧
          (m.type = WSMsgType.text → jget m.data "type" ≠ some (.str MsgType.GOODBYE))) →
        gm.type = WSMsgType.text →
        jget gm.data "type" = some (.str MsgType.GOODBYE) →
        wait_messages (pre ++ gm :: rest)
          = ((pre.filter (fun m => m.type == WSMsgType.text)).map WSMsg.data, true)) :=
  ⟨wait_messages_no_goodbye, wait_messages_stops_at_goodbye⟩

/-- C10: when `wait_messages` ends without yielding a frame (closed
connection, a leading goodbye, an error frame), `got_hello`'s single
`__anext__` raises `StopAsyncIteration`, which propagates: `got_hello`
does not return `False`. -/
theorem got_hello_no_frame (msgs : List WSMsg) (h : (wait_messages msgs).1 = []) :
    got_hello msgs = .error .stopAsyncIteration := by
  unfold got_hello
  rw [h]

/-- Witness for C10: the first raw message is a goodbye frame. -/
theorem got_hello_no_frame_witness :
    got_hello [⟨WSMsgType.text, [("type", JVal.str "goodbye")]⟩]
      = .error .stopAsyncIteration :=
  got_hello_no_frame [⟨WSMsgType.text, [("type", JVal.str "goodbye")]⟩] (by decide)

end Slack
